import Mathlib

/-!
Verification of the DroneStrike control core against its specification.

The Python source (src/autopilot.py, src/main.py) is shallowly embedded:
floats become rationals, Python ints become `Int`/`Nat`, the mutable
`Autopilot` object becomes a record threaded through pure update
functions, and exception control flow becomes explicit outcome values.
-/

namespace DroneStrike

/-! ## Autopilot model (src/autopilot.py)

The Python implementation dispatches `update` on a state object
(`OffState`, `SearchState`, `ChaseState`, `TrackState`).  Here the state
is an enumeration and `stateUpdate` performs the same dispatch; each
branch mirrors the corresponding class body, including the mutation of
`ctx.mode` and, for CHASE with an exhausted counter, the in-place
transition to SEARCH followed by the SEARCH behaviour. -/

inductive APState
  | off
  | search
  | chase
  | track
  deriving DecidableEq, Repr

structure Autopilot where
  speed_xy : ℚ
  speed_z : ℚ
  speed_yaw : ℚ
  last_xmid : ℚ
  last_ytop : ℚ
  box_width : ℚ
  chase_counter : ℕ
  mode : ℕ
  state : APState
  deriving DecidableEq, Repr

/-- Model of `Autopilot.__init__(speed_xy, speed_z, speed_yaw)`. -/
def Autopilot.init (speed_xy speed_z speed_yaw : ℚ) : Autopilot :=
  { speed_xy := speed_xy
    speed_z := speed_z
    speed_yaw := speed_yaw
    last_xmid := 1/2
    last_ytop := 1/2
    box_width := 0
    chase_counter := 0
    mode := 0
    state := .off }

/-- A detection bounding box as handed to `update_detection`
(pixel coordinates `x1, y1, x2, y2`). -/
structure Box where
  x1 : ℚ
  y1 : ℚ
  x2 : ℚ
  y2 : ℚ
  deriving DecidableEq, Repr

/-- Model of `Autopilot.update_detection(person_box, fw, fh)`.  Here `chase_counter` is a
natural number, so `ap.chase_counter - 1` is exactly the Python
`max(0, self.chase_counter - 1)`. -/
def Autopilot.update_detection (ap : Autopilot) (person_box : Option Box)
    (fw fh : ℚ) : Autopilot :=
  match person_box with
  | some b =>
      { ap with
        last_xmid := ((b.x1 + b.x2) / 2) / fw
        last_ytop := 1 - b.y1 / fh
        box_width := (b.x2 - b.x1) / fw
        chase_counter := 7
        state := if ap.state = .search then .chase else ap.state }
  | none => { ap with chase_counter := ap.chase_counter - 1 }

/-- Dispatch of `self.state.update(self)`: returns the `(yaw, ud, fb)`
triple together with the mutated context. -/
def stateUpdate (ap : Autopilot) : (ℚ × ℚ × ℚ) × Autopilot :=
  match ap.state with
  | .off => ((0, 0, 0), { ap with mode := 0 })
  | .search => ((ap.speed_yaw, 0, 0), { ap with mode := 1 })
  | .chase =>
      if ap.chase_counter = 0 then
        ((ap.speed_yaw, 0, 0), { ap with mode := 1, state := .search })
      else
        let yaw_auto := (ap.last_xmid - 1/2) * 2 * ap.speed_yaw
        let ud_auto := (ap.last_ytop - 13/20) * 2 * ap.speed_z
        let fb_auto := (1/2 - 1/2 * ap.box_width) * 2 * ap.speed_xy
        let fb_auto := if fb_auto < 0 then fb_auto * 3 else fb_auto
        let ud_auto := if ap.last_ytop < 1/5 then -15 else ud_auto
        let fb_auto := if ap.last_ytop < 1/5 then -45 else fb_auto
        ((yaw_auto, ud_auto, fb_auto), { ap with mode := 2 })
  | .track =>
      (((ap.last_xmid - 1/2) * 2 * ap.speed_yaw,
        -(ap.last_ytop - 1/2) * 2 * ap.speed_z, 0), { ap with mode := 3 })

/-- Model of `Autopilot.update()`: returns `(yaw, ud, fb, mode)` with `mode` read
after the state mutation, plus the mutated context. -/
def Autopilot.update (ap : Autopilot) : (ℚ × ℚ × ℚ × ℕ) × Autopilot :=
  let r := stateUpdate ap
  ((r.1.1, r.1.2.1, r.1.2.2, r.2.mode), r.2)

/-- A run of `update_detection` ticks from a fresh `Autopilot`. -/
def runDetection (sxy sz syaw : ℚ) (fw fh : ℚ) (ticks : List (Option Box)) :
    Autopilot :=
  ticks.foldl (fun ap t => ap.update_detection t fw fh)
    (Autopilot.init sxy sz syaw)

theorem update_detection_counter_le (ap : Autopilot) (t : Option Box)
    (fw fh : ℚ) (h : ap.chase_counter ≤ 7) :
    (ap.update_detection t fw fh).chase_counter ≤ 7 := by
  cases t <;> simp [Autopilot.update_detection] <;> omega

theorem runDetection_counter_le_aux (fw fh : ℚ) (ticks : List (Option Box))
    (ap : Autopilot) (h : ap.chase_counter ≤ 7) :
    (ticks.foldl (fun ap t => ap.update_detection t fw fh) ap).chase_counter ≤ 7 := by
  induction ticks generalizing ap with
  | nil => exact h
  | cons t rest ih =>
      exact ih _ (update_detection_counter_le ap t fw fh h)

/-- Claim C3: starting from a fresh Autopilot, `chase_counter` stays in
[0, 7] along every tick sequence; a tick that supplies a person box sets
it to 7, a tick without one decrements it with a floor at 0 and can never
leave it at 7 (so 7 is reached exactly on person-box ticks). -/
theorem chase_counter_invariant (sxy sz syaw fw fh : ℚ)
    (ticks : List (Option Box)) (ap : Autopilot) (b : Box)
    (h : ap.chase_counter ≤ 7) :
    (runDetection sxy sz syaw fw fh ticks).chase_counter ≤ 7 ∧
    (ap.update_detection (some b) fw fh).chase_counter = 7 ∧
    (ap.update_detection none fw fh).chase_counter = ap.chase_counter - 1 ∧
    (ap.update_detection none fw fh).chase_counter ≠ 7 := by
  refine ⟨?_, ?_, ?_, ?_⟩
  · exact runDetection_counter_le_aux fw fh ticks _ (by simp [Autopilot.init])
  · simp [Autopilot.update_detection]
  · simp [Autopilot.update_detection]
  · simp [Autopilot.update_detection]
    omega

/-- Witness for `chase_counter_invariant` at a concrete run. -/
theorem chase_counter_invariant_witness :
    (runDetection 100 100 100 960 720 [some ⟨0, 0, 10, 20⟩, none]).chase_counter ≤ 7 ∧
    ((Autopilot.init 100 100 100).update_detection (some ⟨0, 0, 10, 20⟩) 960 720).chase_counter = 7 ∧
    ((Autopilot.init 100 100 100).update_detection none 960 720).chase_counter =
      (Autopilot.init 100 100 100).chase_counter - 1 ∧
    ((Autopilot.init 100 100 100).update_detection none 960 720).chase_counter ≠ 7 :=
  chase_counter_invariant 100 100 100 960 720 [some ⟨0, 0, 10, 20⟩, none]
    (Autopilot.init 100 100 100) ⟨0, 0, 10, 20⟩ (by decide)

/-- Claim C4: in CHASE with a positive counter, `update` emits the
proportional guidance formulas, tripling a negative forward-back term,
and the `last_ytop < 0.2` proximity override forces `fb = -45`,
`ud = -15` while the yaw formula still applies. -/
theorem chase_command_formulas (ap : Autopilot)
    (h1 : ap.state = .chase) (h2 : 0 < ap.chase_counter) :
    (ap.update).1.1 = (ap.last_xmid - 1/2) * 2 * ap.speed_yaw ∧
    (ap.update).1.2.1 = (if ap.last_ytop < 1/5 then -15
      else (ap.last_ytop - 13/20) * 2 * ap.speed_z) ∧
    (ap.update).1.2.2.1 = (if ap.last_ytop < 1/5 then -45
      else if (1/2 - 1/2 * ap.box_width) * 2 * ap.speed_xy < 0
        then 3 * ((1/2 - 1/2 * ap.box_width) * 2 * ap.speed_xy)
        else (1/2 - 1/2 * ap.box_width) * 2 * ap.speed_xy) := by
  have h2n : ¬ ap.chase_counter = 0 := Nat.pos_iff_ne_zero.mp h2
  refine ⟨?_, ?_, ?_⟩ <;>
    simp [Autopilot.update, stateUpdate, h1, h2n] <;>
    split_ifs <;> ring

/-- A concrete CHASE context exercising the proximity override. -/
def apChase : Autopilot :=
  { speed_xy := 100
    speed_z := 100
    speed_yaw := 100
    last_xmid := 3/4
    last_ytop := 1/10
    box_width := 1/5
    chase_counter := 3
    mode := 2
    state := .chase }

/-- Witness for `chase_command_formulas` at a concrete context. -/
theorem chase_command_formulas_witness :
    (apChase.update).1.1 = (apChase.last_xmid - 1/2) * 2 * apChase.speed_yaw ∧
    (apChase.update).1.2.1 = (if apChase.last_ytop < 1/5 then -15
      else (apChase.last_ytop - 13/20) * 2 * apChase.speed_z) ∧
    (apChase.update).1.2.2.1 = (if apChase.last_ytop < 1/5 then -45
      else if (1/2 - 1/2 * apChase.box_width) * 2 * apChase.speed_xy < 0
        then 3 * ((1/2 - 1/2 * apChase.box_width) * 2 * apChase.speed_xy)
        else (1/2 - 1/2 * apChase.box_width) * 2 * apChase.speed_xy) :=
  chase_command_formulas apChase rfl (by decide)

/-- One autopilot step of the control loop without any mode-switch key:
pull the detection, run `update_detection`, then `update`. -/
def controlTick (ap : Autopilot) (pb : Option Box) (fw fh : ℚ) : Autopilot :=
  ((ap.update_detection pb fw fh).update).2

/-- Claim C5: with no external mode switch, SEARCH moves to CHASE exactly
on person-box ticks, CHASE moves to SEARCH exactly when the counter has
reached 0 on a tick without a person box, and no other automatic
transition happens (OFF and TRACK are fixed, SEARCH and CHASE only reach
the states above). -/
theorem auto_transitions (ap : Autopilot) (pb : Option Box) (fw fh : ℚ) :
    (ap.state = .search →
      ((controlTick ap pb fw fh).state = .chase ↔ pb.isSome)) ∧
    (ap.state = .search → pb = none →
      (controlTick ap pb fw fh).state = .search) ∧
    (ap.state = .chase →
      ((controlTick ap pb fw fh).state = .search ↔
        pb = none ∧ (ap.update_detection pb fw fh).chase_counter = 0)) ∧
    (ap.state = .chase →
      ((controlTick ap pb fw fh).state = .chase ∨
       (controlTick ap pb fw fh).state = .search)) ∧
    (ap.state = .off → (controlTick ap pb fw fh).state = .off) ∧
    (ap.state = .track → (controlTick ap pb fw fh).state = .track) := by
  refine ⟨?_, ?_, ?_, ?_, ?_, ?_⟩ <;> intro h <;>
    cases pb <;>
      simp [controlTick, Autopilot.update, Autopilot.update_detection,
        stateUpdate, h] <;>
    split_ifs <;> simp_all

/-- Witness for `auto_transitions`: a fresh SEARCH context acquires the
target. -/
theorem auto_transitions_witness :
    (controlTick { Autopilot.init 100 100 100 with state := .search }
      (some ⟨0, 0, 10, 20⟩) 960 720).state = APState.chase :=
  ((auto_transitions { Autopilot.init 100 100 100 with state := .search }
    (some ⟨0, 0, 10, 20⟩) 960 720).1 rfl).mpr rfl

/-- Iterated loop ticks in which the detection never supplies a person
box. -/
def iterTickNone (fw fh : ℚ) : ℕ → Autopilot → Autopilot
  | 0, ap => ap
  | n + 1, ap => iterTickNone fw fh n (controlTick ap none fw fh)

theorem controlTick_chase_none (ap : Autopilot) (fw fh : ℚ)
    (h1 : ap.state = .chase) :
    controlTick ap none fw fh =
      (if ap.chase_counter - 1 = 0 then
        { ap with chase_counter := ap.chase_counter - 1, mode := 1,
                  state := .search }
       else { ap with chase_counter := ap.chase_counter - 1, mode := 2 }) := by
  simp [controlTick, Autopilot.update, Autopilot.update_detection,
    stateUpdate, h1]
  split_ifs <;> rfl

theorem controlTick_search_none (ap : Autopilot) (fw fh : ℚ)
    (h : ap.state = .search) :
    controlTick ap none fw fh =
      { ap with chase_counter := ap.chase_counter - 1, mode := 1 } := by
  simp [controlTick, Autopilot.update, Autopilot.update_detection,
    stateUpdate, h]

theorem iterTickNone_succ_outer (fw fh : ℚ) (n : ℕ) (ap : Autopilot) :
    iterTickNone fw fh (n + 1) ap =
      controlTick (iterTickNone fw fh n ap) none fw fh := by
  induction n generalizing ap with
  | zero => rfl
  | succ m ih =>
      show iterTickNone fw fh (m + 1) (controlTick ap none fw fh) = _
      rw [ih]
      rfl

theorem iterTickNone_chase (fw fh : ℚ) (n : ℕ) (ap : Autopilot)
    (h1 : ap.state = .chase) (h2 : ap.chase_counter = n + 1) :
    iterTickNone fw fh (n + 1) ap =
      { ap with chase_counter := 0, mode := 1, state := .search } := by
  induction n generalizing ap with
  | zero =>
      show controlTick ap none fw fh = _
      rw [controlTick_chase_none ap fw fh h1, h2]
      norm_num
  | succ m ih =>
      show iterTickNone fw fh (m + 1) (controlTick ap none fw fh) = _
      rw [controlTick_chase_none ap fw fh h1, h2]
      have hne : ¬ (m + 1 + 1 - 1 = 0) := by omega
      rw [if_neg hne]
      rw [ih { ap with chase_counter := m + 1 + 1 - 1, mode := 2 } h1
        (show m + 1 + 1 - 1 = m + 1 by omega)]

/-- Claim C7: from CHASE with the counter at its reset value 7, eight
consecutive ticks with no person box leave the state machine in SEARCH,
and the yaw delta emitted by `update` on the eighth tick is the constant
search rate `speed_yaw`. -/
theorem chase_starves_to_search (ap : Autopilot) (fw fh : ℚ)
    (h1 : ap.state = .chase) (h2 : ap.chase_counter = 7) :
    (iterTickNone fw fh 8 ap).state = .search ∧
    (((iterTickNone fw fh 7 ap).update_detection none fw fh).update).1.1 =
      ap.speed_yaw := by
  have e7 : iterTickNone fw fh 7 ap =
      { ap with chase_counter := 0, mode := 1, state := .search } :=
    iterTickNone_chase fw fh 6 ap h1 h2
  constructor
  · rw [iterTickNone_succ_outer fw fh 7 ap, e7,
      controlTick_search_none _ fw fh rfl]
  · rw [e7]
    simp [Autopilot.update, Autopilot.update_detection, stateUpdate]

/-- Witness for `chase_starves_to_search` at a concrete context. -/
theorem chase_starves_to_search_witness :
    (iterTickNone 960 720 8 { apChase with chase_counter := 7 }).state = .search ∧
    (((iterTickNone 960 720 7 { apChase with chase_counter := 7 }).update_detection
        none 960 720).update).1.1 = { apChase with chase_counter := 7 }.speed_yaw :=
  chase_starves_to_search { apChase with chase_counter := 7 } 960 720 rfl rfl

/-- Claim C10: `update_detection` with no person box changes nothing but
`chase_counter`: guidance fields, speeds, mode and state are untouched. -/
theorem update_detection_none_frame (ap : Autopilot) (fw fh : ℚ) :
    ap.update_detection none fw fh =
      { ap with chase_counter := ap.chase_counter - 1 } ∧
    (ap.update_detection none fw fh).last_xmid = ap.last_xmid ∧
    (ap.update_detection none fw fh).last_ytop = ap.last_ytop ∧
    (ap.update_detection none fw fh).box_width = ap.box_width ∧
    (ap.update_detection none fw fh).speed_xy = ap.speed_xy ∧
    (ap.update_detection none fw fh).speed_z = ap.speed_z ∧
    (ap.update_detection none fw fh).speed_yaw = ap.speed_yaw ∧
    (ap.update_detection none fw fh).state = ap.state := by
  refine ⟨rfl, rfl, rfl, rfl, rfl, rfl, rfl, rfl⟩

/-! ## Command mixing (src/main.py, run_drone main loop)

The manual deltas come from the polled key states, the autopilot deltas
from `Autopilot.update`; each axis is `clamp`ed and handed to
`send_rc_control` through the Python `int(...)` builtin, which truncates toward
zero. -/

/-- The key states polled in one control tick (`keyboard.is_pressed`). -/
structure Keys where
  w : Bool
  s : Bool
  a : Bool
  d : Bool
  i : Bool
  k : Bool
  j : Bool
  l : Bool
  key0 : Bool
  key1 : Bool
  key2 : Bool
  key5 : Bool
  space : Bool
  esc : Bool
  deriving DecidableEq, Repr

/-- Model of `clamp(val, min_val, max_val) = max(min_val, min(max_val, val))`. -/
def clamp (val min_val max_val : ℚ) : ℚ :=
  max min_val (min max_val val)

/-- Python `int(q)`: truncation toward zero. -/
def truncQ (q : ℚ) : ℤ :=
  if 0 ≤ q then ⌊q⌋ else ⌈q⌉

/-- Manual delta `lr = speed_xy if d else -speed_xy if a else 0`. -/
def manual_lr (keys : Keys) (speed_xy : ℚ) : ℚ :=
  if keys.d then speed_xy else if keys.a then -speed_xy else 0

/-- Manual delta `fb = speed_xy if w else -5*speed_xy if s else 0`. -/
def manual_fb (keys : Keys) (speed_xy : ℚ) : ℚ :=
  if keys.w then speed_xy else if keys.s then -5 * speed_xy else 0

/-- Manual delta `ud_manual = speed_z if i else -speed_z if k else 0`. -/
def manual_ud (keys : Keys) (speed_z : ℚ) : ℚ :=
  if keys.i then speed_z else if keys.k then -speed_z else 0

/-- Manual delta `yaw_manual = speed_yaw if l else -speed_yaw if j else 0`. -/
def manual_yaw (keys : Keys) (speed_yaw : ℚ) : ℚ :=
  if keys.l then speed_yaw else if keys.j then -speed_yaw else 0

/-- The integer command quadruple handed to `send_rc_control`. -/
structure Command where
  lr : ℤ
  fb : ℤ
  ud : ℤ
  yaw : ℤ
  deriving DecidableEq, Repr

/-- One tick of command mixing:
`lr = clamp(lr)`, `fb = clamp(fb + fb_auto)`, `ud = clamp(ud_manual +
ud_auto)`, `yaw = clamp(yaw_manual + yaw_auto)`, then `int(...)` on each
axis at the `send_rc_control` call. -/
def mixCommand (keys : Keys) (speed_xy speed_z speed_yaw : ℚ)
    (yaw_auto ud_auto fb_auto : ℚ) : Command :=
  { lr := truncQ (clamp (manual_lr keys speed_xy) (-100) 100)
    fb := truncQ (clamp (manual_fb keys speed_xy + fb_auto) (-100) 100)
    ud := truncQ (clamp (manual_ud keys speed_z + ud_auto) (-100) 100)
    yaw := truncQ (clamp (manual_yaw keys speed_yaw + yaw_auto) (-100) 100) }

theorem truncQ_le (q : ℚ) (n : ℤ) (h : q ≤ n) : truncQ q ≤ n := by
  unfold truncQ
  split_ifs
  · exact_mod_cast le_trans (Int.floor_le q) h
  · exact Int.ceil_le.mpr h

theorem le_truncQ (q : ℚ) (n : ℤ) (h : (n : ℚ) ≤ q) : n ≤ truncQ q := by
  unfold truncQ
  split_ifs
  · exact Int.le_floor.mpr h
  · exact_mod_cast le_trans h (Int.le_ceil q)

theorem clamp_le (val : ℚ) : clamp val (-100) 100 ≤ 100 :=
  max_le (by norm_num) (min_le_left _ _)

theorem le_clamp (val : ℚ) : (-100 : ℚ) ≤ clamp val (-100) 100 :=
  le_max_left _ _

theorem axis_bounds (q : ℚ) :
    -100 ≤ truncQ (clamp q (-100) 100) ∧ truncQ (clamp q (-100) 100) ≤ 100 :=
  ⟨le_truncQ _ _ (by exact_mod_cast le_clamp q),
   truncQ_le _ _ (by exact_mod_cast clamp_le q)⟩

/-- Claim C1: each axis of the transmitted `Command` is the
truncated-to-integer clamp of the manual delta plus the autopilot delta
for that axis (the autopilot contributes 0 to left-right), and every
axis lies in [-100, 100]. -/
theorem command_mixing_clamped (keys : Keys)
    (speed_xy speed_z speed_yaw yaw_auto ud_auto fb_auto : ℚ) :
    (mixCommand keys speed_xy speed_z speed_yaw yaw_auto ud_auto fb_auto).lr =
      truncQ (clamp (manual_lr keys speed_xy + 0) (-100) 100) ∧
    (mixCommand keys speed_xy speed_z speed_yaw yaw_auto ud_auto fb_auto).fb =
      truncQ (clamp (manual_fb keys speed_xy + fb_auto) (-100) 100) ∧
    (mixCommand keys speed_xy speed_z speed_yaw yaw_auto ud_auto fb_auto).ud =
      truncQ (clamp (manual_ud keys speed_z + ud_auto) (-100) 100) ∧
    (mixCommand keys speed_xy speed_z speed_yaw yaw_auto ud_auto fb_auto).yaw =
      truncQ (clamp (manual_yaw keys speed_yaw + yaw_auto) (-100) 100) ∧
    (-100 ≤ (mixCommand keys speed_xy speed_z speed_yaw yaw_auto ud_auto fb_auto).lr ∧
      (mixCommand keys speed_xy speed_z speed_yaw yaw_auto ud_auto fb_auto).lr ≤ 100) ∧
    (-100 ≤ (mixCommand keys speed_xy speed_z speed_yaw yaw_auto ud_auto fb_auto).fb ∧
      (mixCommand keys speed_xy speed_z speed_yaw yaw_auto ud_auto fb_auto).fb ≤ 100) ∧
    (-100 ≤ (mixCommand keys speed_xy speed_z speed_yaw yaw_auto ud_auto fb_auto).ud ∧
      (mixCommand keys speed_xy speed_z speed_yaw yaw_auto ud_auto fb_auto).ud ≤ 100) ∧
    (-100 ≤ (mixCommand keys speed_xy speed_z speed_yaw yaw_auto ud_auto fb_auto).yaw ∧
      (mixCommand keys speed_xy speed_z speed_yaw yaw_auto ud_auto fb_auto).yaw ≤ 100) := by
  refine ⟨by simp [mixCommand], rfl, rfl, rfl, ?_, ?_, ?_, ?_⟩ <;>
    exact axis_bounds _

/-! ## Shutdown sequence (src/main.py, run_drone `finally` block)

The `finally` block is
`stop_event.set(); det_thread.join(timeout=1); cam_thread.join(timeout=1);
try: drone.send_rc_control(0,0,0,0); drone.land() except Exception: pass;
frame_reader.stop(); drone.streamoff(); drone.end();
cv2.destroyAllWindows()`.
`Event.set` and `Thread.join(timeout)` do not raise; the external calls
may.  `shutdownRun` returns the list of steps actually invoked together
with the step whose exception escapes the block, if any. -/

inductive SdStep
  | setStopEvent
  | joinDet
  | joinCam
  | zeroCommand
  | land
  | stopFrameReader
  | streamoff
  | endDrone
  | destroyWindows
  deriving DecidableEq, Repr

/-- Which of the fallible external calls raise in this run. -/
structure SdFailures where
  zeroCommand : Bool
  land : Bool
  stopFrameReader : Bool
  streamoff : Bool
  endDrone : Bool
  destroyWindows : Bool
  deriving DecidableEq, Repr

/-- The four unguarded resource-release statements after the inner
`try/except`: executed in order, the first raising one aborts the rest
and its exception escapes the `finally` block. -/
def shutdownTail (f : SdFailures) (done : List SdStep) :
    List SdStep × Option SdStep :=
  if f.stopFrameReader then (done ++ [.stopFrameReader], some .stopFrameReader)
  else if f.streamoff then
    (done ++ [.stopFrameReader, .streamoff], some .streamoff)
  else if f.endDrone then
    (done ++ [.stopFrameReader, .streamoff, .endDrone], some .endDrone)
  else if f.destroyWindows then
    (done ++ [.stopFrameReader, .streamoff, .endDrone, .destroyWindows],
      some .destroyWindows)
  else
    (done ++ [.stopFrameReader, .streamoff, .endDrone, .destroyWindows], none)

/-- The whole `finally` block.  `send_rc_control` is always attempted; if
it raises, `land` is skipped and the exception is swallowed by the
`except Exception: pass`; if `land` raises its exception is likewise
swallowed. -/
def shutdownRun (f : SdFailures) : List SdStep × Option SdStep :=
  shutdownTail f
    ([.setStopEvent, .joinDet, .joinCam, .zeroCommand] ++
      (if f.zeroCommand then [] else [.land]))

/-- Normal (`break`) or abnormal (escaping exception) exit of the main
loop body. -/
inductive LoopExit
  | landRequested
  | abnormal
  deriving DecidableEq, Repr

/-- Model of `try: <main loop> finally: <shutdown>`: the `finally` block runs the
same statements whichever way the loop exited. -/
def runDroneFinally (e : LoopExit) (f : SdFailures) :
    List SdStep × Option SdStep :=
  match e with
  | .landRequested => shutdownRun f
  | .abnormal => shutdownRun f

/-- Counterexample to claim C2 as stated: a failure of
`frame_reader.stop()` escapes the shutdown sequence — it is not
best-effort across all of its steps. -/
theorem shutdown_can_raise :
    (shutdownRun
      { zeroCommand := false, land := false, stopFrameReader := true,
        streamoff := false, endDrone := false,
        destroyWindows := false }).2 = some SdStep.stopFrameReader := by
  decide

/-- Claim C2 (amended): on either loop exit the shutdown sequence runs —
stop signal, bounded joins, then an attempted zero command followed, when
the zero command does not raise, by an attempted land, with failures of
those two swallowed; the unguarded resource-release steps follow, and a
failure there escapes; when nothing fails every step runs and nothing is
raised. -/
theorem shutdown_sequence (e : LoopExit) (f : SdFailures) :
    SdStep.setStopEvent ∈ (runDroneFinally e f).1 ∧
    SdStep.joinDet ∈ (runDroneFinally e f).1 ∧
    SdStep.joinCam ∈ (runDroneFinally e f).1 ∧
    SdStep.zeroCommand ∈ (runDroneFinally e f).1 ∧
    (f.zeroCommand = false → SdStep.land ∈ (runDroneFinally e f).1) ∧
    (runDroneFinally e f).2 ≠ some SdStep.zeroCommand ∧
    (runDroneFinally e f).2 ≠ some SdStep.land ∧
    (f.stopFrameReader = true →
      (runDroneFinally e f).2 = some SdStep.stopFrameReader) ∧
    (f.stopFrameReader = false → f.streamoff = false → f.endDrone = false →
      f.destroyWindows = false →
      (runDroneFinally e f).2 = none ∧
      SdStep.destroyWindows ∈ (runDroneFinally e f).1) := by
  cases e <;>
    simp only [runDroneFinally, shutdownRun, shutdownTail] <;>
    rcases f with ⟨z, la, st, so, en, de⟩ <;>
    cases z <;> cases la <;> cases st <;> cases so <;> cases en <;> cases de <;>
    simp

/-- Witness for `shutdown_sequence`: the failure-free abnormal exit runs
everything and raises nothing. -/
theorem shutdown_sequence_witness :
    (runDroneFinally .abnormal
      { zeroCommand := false, land := false, stopFrameReader := false,
        streamoff := false, endDrone := false, destroyWindows := false }).2 =
      none ∧
    SdStep.land ∈ (runDroneFinally .abnormal
      { zeroCommand := false, land := false, stopFrameReader := false,
        streamoff := false, endDrone := false, destroyWindows := false }).1 :=
  have h := shutdown_sequence .abnormal
    { zeroCommand := false, land := false, stopFrameReader := false,
      streamoff := false, endDrone := false, destroyWindows := false }
  ⟨(h.2.2.2.2.2.2.2.2 rfl rfl rfl rfl).1, h.2.2.2.2.1 rfl⟩

/-! ## Detection worker tick (src/main.py, detection_thread_func)

One iteration of the worker loop: snapshot the shared frame; if present,
run the detector (`detector(frame, verbose=False)[0]` — **not** wrapped
in any `try`), scan the boxes keeping every detection and the
largest-area person box (strict `>`, so ties keep the first), and publish
both fields of `detection_result` under the lock.  A detector exception
escapes `detection_thread_func`. -/

/-- One detection `(x1, y1, x2, y2, cls_name, conf)` as built by the
worker (`.int().tolist()` makes the coordinates integers). -/
structure Det where
  x1 : ℤ
  y1 : ℤ
  x2 : ℤ
  y2 : ℤ
  cls : String
  conf : ℚ
  deriving DecidableEq, Repr

/-- The shared `detection_result` cell. -/
structure DetBuffer where
  boxes : List Det
  person_box : Option (ℤ × ℤ × ℤ × ℤ)
  deriving DecidableEq, Repr

/-- Loop body over the detector output: append to `dets`; for a person
box whose area strictly exceeds the largest seen, record it. -/
def detFold (acc : List Det × Option (ℤ × ℤ × ℤ × ℤ) × ℤ) (d : Det) :
    List Det × Option (ℤ × ℤ × ℤ × ℤ) × ℤ :=
  let dets := acc.1 ++ [d]
  if d.cls = "person" then
    let area := (d.x2 - d.x1) * (d.y2 - d.y1)
    if area > acc.2.2 then (dets, some (d.x1, d.y1, d.x2, d.y2), area)
    else (dets, acc.2.1, acc.2.2)
  else (dets, acc.2.1, acc.2.2)

/-- One worker tick: `(buffer afterwards, did an exception escape)`.
The detector call either returns its box list or raises. -/
def detectionTick (buf : DetBuffer) (frame : Option Unit)
    (inferResult : Except Unit (List Det)) : DetBuffer × Bool :=
  match frame with
  | none => (buf, false)
  | some _ =>
      match inferResult with
      | .error _ => (buf, true)
      | .ok results =>
          let r := results.foldl detFold ([], none, 0)
          ({ boxes := r.1, person_box := r.2.1 }, false)

/-- Counterexample to claim C6 as stated: a detector error is not caught
inside `detection_thread_func` — the tick reports an escaping
exception. -/
theorem detector_error_escapes :
    (detectionTick { boxes := [], person_box := none } (some ())
      (Except.error ())).2 = true := by
  decide

/-- Claim C6 (amended): when the detector raises, the exception
propagates out of the worker loop body (killing the worker thread), but
the DetectionBuffer is left exactly as it was before the tick. -/
theorem detector_error_buffer_unchanged (buf : DetBuffer) (e : Unit) :
    detectionTick buf (some e) (Except.error ()) = (buf, true) := by
  rfl

/-! ## First-frame wait and frame dimensions (src/main.py, run_drone)

Before the main loop, `run_drone` polls `shared_frame` under the lock,
sleeping `1/loop_hz` after each empty poll, until a frame appears; it
reads `fh, fw = frame.shape[:2]` and then immediately overwrites them
with the constants `fh = 720; fw = 960`. -/

/-- Poll the frame cell until a frame (its `(height, width)` shape) is
seen, counting at most `fuel` polls; returns the shape of the first frame and
the number of empty polls (= sleeps of `1/loop_hz`) before it. -/
def waitFirstFrameAux (frames : ℕ → Option (ℕ × ℕ)) :
    ℕ → ℕ → Option ((ℕ × ℕ) × ℕ)
  | 0, _ => none
  | fuel + 1, idx =>
      match frames idx with
      | some d => some (d, idx)
      | none => waitFirstFrameAux frames fuel (idx + 1)

def waitFirstFrame (frames : ℕ → Option (ℕ × ℕ)) (fuel : ℕ) :
    Option ((ℕ × ℕ) × ℕ) :=
  waitFirstFrameAux frames fuel 0

/-- Model of `fh, fw = frame.shape[:2]` followed by `fh = 720; fw = 960`: the
`(fh, fw)` pair actually used for normalization afterwards. -/
def usedFrameDims (firstShape : ℕ × ℕ) : ℕ × ℕ :=
  let fh := firstShape.1
  let fw := firstShape.2
  let fh := 720
  let fw := 960
  (fh, fw)

/-- Counterexample to claim C9 as stated: a first frame of shape
480×640 does not give working dimensions 480×640 — the constants
720×960 are used instead. -/
theorem used_dims_not_learned : usedFrameDims (480, 640) ≠ (480, 640) := by
  decide

theorem waitFirstFrameAux_finds (frames : ℕ → Option (ℕ × ℕ)) (k : ℕ)
    (d : ℕ × ℕ) : ∀ idx, frames (idx + k) = some d →
    (∀ j, j < k → frames (idx + j) = none) →
    waitFirstFrameAux frames (k + 1) idx = some (d, idx + k) := by
  induction k with
  | zero =>
      intro idx hk _
      show (match frames idx with
        | some d => some (d, idx)
        | none => waitFirstFrameAux frames 0 (idx + 1)) = some (d, idx + 0)
      simp only [Nat.add_zero] at hk
      rw [hk]
      rfl
  | succ m ih =>
      intro idx hk hnone
      have h0 : frames idx = none := by
        have := hnone 0 (Nat.succ_pos m)
        simpa using this
      have hk2 : frames (idx + 1 + m) = some d := by
        rw [show idx + 1 + m = idx + (m + 1) by omega]
        exact hk
      have hnone2 : ∀ j, j < m → frames (idx + 1 + j) = none := by
        intro j hj
        rw [show idx + 1 + j = idx + (j + 1) by omega]
        exact hnone (j + 1) (by omega)
      have step : waitFirstFrameAux frames (m + 1 + 1) idx =
          waitFirstFrameAux frames (m + 1) (idx + 1) := by
        show (match frames idx with
          | some d => some (d, idx)
          | none => waitFirstFrameAux frames (m + 1) (idx + 1)) =
            waitFirstFrameAux frames (m + 1) (idx + 1)
        rw [h0]
      rw [step, ih (idx + 1) hk2 hnone2]
      congr 2
      omega

/-- Claim C9 (amended): the pre-loop wait blocks, sleeping once per empty
poll, until the FrameBuffer yields its first frame — but the dimensions
used thereafter for normalization are the constants 720×960, not the
own shape of the first frame. -/
theorem first_frame_wait (frames : ℕ → Option (ℕ × ℕ)) (k : ℕ) (d : ℕ × ℕ)
    (hk : frames k = some d) (hnone : ∀ j, j < k → frames j = none) :
    waitFirstFrame frames (k + 1) = some (d, k) ∧
    usedFrameDims d = (720, 960) := by
  constructor
  · have := waitFirstFrameAux_finds frames k d 0 (by simpa using hk)
      (by intro j hj; simpa using hnone j hj)
    simpa [waitFirstFrame] using this
  · rfl

/-- Witness for `first_frame_wait`: the first frame arrives on the second
poll with shape 480×640. -/
theorem first_frame_wait_witness :
    waitFirstFrame (fun n => if n = 1 then some (480, 640) else none) 2 =
      some ((480, 640), 1) ∧
    usedFrameDims (480, 640) = (720, 960) :=
  first_frame_wait (fun n => if n = 1 then some (480, 640) else none) 1
    (480, 640) (by simp) (by decide)

/-! ## Main loop ticks and the pre-flight hold (src/main.py, run_drone)

One iteration of the `while True` body: mode-switch keys, detection
pull, autopilot update, command mixing, then either `send_rc_control`
(when flying) or the takeoff / dwell-and-abort branch (when not), and
finally the window/space exit check.  A tick yields the next loop state,
the external drone actions it performed, and whether it left the loop. -/

structure LoopState where
  autopilot : Autopilot
  flying : Bool
  deriving Repr

inductive DroneAction
  | sendCommand (c : Command)
  | takeoff
  deriving DecidableEq, Repr

/-- The inputs observed during one tick: polled keys, the snapshot of
`detection_result["person_box"]`, whether the HTTP `takeoff_event` is
set, and whether `cv2.waitKey` reported Esc. -/
structure TickInput where
  keys : Keys
  person_box : Option Box
  eventSet : Bool
  escWindow : Bool
  deriving Repr

def mainTick (fw fh sxy sz syaw : ℚ) (st : LoopState) (inp : TickInput) :
    LoopState × List DroneAction × Bool :=
  let ap := st.autopilot
  let ap := if inp.keys.key1 then { ap with state := .off }
    else if inp.keys.key0 then { ap with state := .search }
    else if inp.keys.key2 then { ap with state := .track }
    else ap
  let ap := ap.update_detection inp.person_box fw fh
  let u := ap.update
  let ap := u.2
  let cmd := mixCommand inp.keys sxy sz syaw u.1.1 u.1.2.1 u.1.2.2.1
  if st.flying then
    ({ autopilot := ap, flying := true }, [.sendCommand cmd],
      inp.escWindow || inp.keys.space)
  else if inp.keys.key5 || inp.eventSet then
    ({ autopilot := ap, flying := true }, [.takeoff],
      inp.escWindow || inp.keys.space)
  else
    ({ autopilot := ap, flying := false }, [],
      (inp.keys.space || inp.keys.esc) || (inp.escWindow || inp.keys.space))

/-- Run the loop over a sequence of tick inputs, stopping when a tick
breaks out; collects every external drone action performed. -/
def runLoop (fw fh sxy sz syaw : ℚ) :
    LoopState → List TickInput → LoopState × List DroneAction
  | st, [] => (st, [])
  | st, inp :: rest =>
      let r := mainTick fw fh sxy sz syaw st inp
      if r.2.2 then (r.1, r.2.1)
      else
        let rr := runLoop fw fh sxy sz syaw r.1 rest
        (rr.1, r.2.1 ++ rr.2)

theorem mainTick_no_trigger (fw fh sxy sz syaw : ℚ) (st : LoopState)
    (inp : TickInput) (hfly : st.flying = false)
    (h5 : inp.keys.key5 = false) (hev : inp.eventSet = false) :
    (mainTick fw fh sxy sz syaw st inp).2.1 = [] ∧
    (mainTick fw fh sxy sz syaw st inp).1.flying = false := by
  simp [mainTick, hfly, h5, hev]

theorem runLoop_no_trigger (fw fh sxy sz syaw : ℚ) (inputs : List TickInput) :
    ∀ st : LoopState, st.flying = false →
    (∀ i ∈ inputs, i.keys.key5 = false ∧ i.eventSet = false) →
    (runLoop fw fh sxy sz syaw st inputs).2 = [] := by
  induction inputs with
  | nil =>
      intro st _ _
      rfl
  | cons inp rest ih =>
      intro st hfly hall
      have h1 := hall inp (List.mem_cons_self inp rest)
      have ht := mainTick_no_trigger fw fh sxy sz syaw st inp hfly h1.1 h1.2
      have hrest : ∀ i ∈ rest, i.keys.key5 = false ∧ i.eventSet = false :=
        fun i hi => hall i (List.mem_cons_of_mem inp hi)
      show (if (mainTick fw fh sxy sz syaw st inp).2.2 then
          ((mainTick fw fh sxy sz syaw st inp).1,
            (mainTick fw fh sxy sz syaw st inp).2.1)
        else
          ((runLoop fw fh sxy sz syaw (mainTick fw fh sxy sz syaw st inp).1 rest).1,
            (mainTick fw fh sxy sz syaw st inp).2.1 ++
              (runLoop fw fh sxy sz syaw (mainTick fw fh sxy sz syaw st inp).1 rest).2)).2 = []
      split_ifs
      · exact ht.1
      · simp [ht.1, ih _ ht.2 hrest]

/-- Claim C8: while the takeoff trigger (key `5` or the HTTP takeoff
event) has not been observed, a tick performs no external drone action —
in particular no `send_rc_control` — and leaves `flying` false; pressing
space during the dwell exits the loop without a takeoff; and along any
input sequence with no trigger the loop performs no drone action at
all. -/
theorem preflight_hold (fw fh sxy sz syaw : ℚ) (st : LoopState)
    (inp : TickInput) (inputs : List TickInput)
    (hfly : st.flying = false) :
    (inp.keys.key5 = false → inp.eventSet = false →
      (mainTick fw fh sxy sz syaw st inp).2.1 = [] ∧
      (mainTick fw fh sxy sz syaw st inp).1.flying = false) ∧
    (inp.keys.key5 = false → inp.eventSet = false →
      inp.keys.space = true →
      (mainTick fw fh sxy sz syaw st inp).2.2 = true) ∧
    ((∀ i ∈ inputs, i.keys.key5 = false ∧ i.eventSet = false) →
      (runLoop fw fh sxy sz syaw st inputs).2 = []) := by
  refine ⟨fun h5 hev => mainTick_no_trigger fw fh sxy sz syaw st inp hfly h5 hev,
    fun h5 hev hsp => ?_,
    fun hall => runLoop_no_trigger fw fh sxy sz syaw inputs st hfly hall⟩
  simp [mainTick, hfly, h5, hev, hsp]

/-- The key state with nothing pressed. -/
def keysNone : Keys :=
  { w := false, s := false, a := false, d := false, i := false, k := false,
    j := false, l := false, key0 := false, key1 := false, key2 := false,
    key5 := false, space := false, esc := false }

/-- A quiet pre-takeoff tick input. -/
def inpQuiet : TickInput :=
  { keys := keysNone, person_box := none, eventSet := false,
    escWindow := false }

/-- The loop state before takeoff. -/
def stGround : LoopState :=
  { autopilot := Autopilot.init 100 100 100, flying := false }

/-- Witness for `preflight_hold`: a quiet two-tick run on the ground
performs no drone action. -/
theorem preflight_hold_witness :
    (mainTick 960 720 100 100 100 stGround inpQuiet).2.1 = [] ∧
    (runLoop 960 720 100 100 100 stGround [inpQuiet, inpQuiet]).2 = [] :=
  have h := preflight_hold 960 720 100 100 100 stGround inpQuiet
    [inpQuiet, inpQuiet] rfl
  ⟨(h.1 rfl rfl).1,
    h.2.2 (by
      intro i hi
      have h2 : i = inpQuiet := by simpa using hi
      rw [h2]
      exact ⟨rfl, rfl⟩)⟩
